import Mathlib

/-!
Shallow embedding of the chat-with-PDF application
(src/chat_with_pdf/chatbot.py) for checking its specification.

The Python class `State` holds the session fields; its methods
`preprocess_image`, `extract_text_with_ocr`, `handle_upload`, `chat` and
`clear_chat` are translated below as pure functions.  External
collaborators (PyPDF2, pdf2image, pytesseract, the embedchain store and
the language model) are modelled as oracle inputs gathered in environment
structures: each oracle returns either a value or the message of the
exception it raises.  Python string truthiness of `extract_text` results
is modelled by the empty string, and `str.strip()` by `String.trim`.
-/

namespace ChatWithPdf

/-- One chat message: a dict with keys role and content, as appended by
`State.chat`. -/
structure Message where
  role : String
  content : String
deriving DecidableEq, Repr

/-- The session state fields of the Python class `State`. -/
structure State where
  messages : List Message
  db_path : String
  pdf_filename : String
  knowledge_base_files : List String
  user_question : String
  upload_status : String
deriving DecidableEq, Repr

/-- `State.preprocess_image`: convert to grayscale, enhance contrast by
the fixed factor 2.0, then apply the sharpen filter.  The PIL image type
and its three operations are abstract parameters. -/
def preprocess_image {Image : Type} (grayscale : Image → Image)
    (contrast : Rat → Image → Image) (sharpen : Image → Image)
    (image : Image) : Image :=
  sharpen (contrast 2 (grayscale image))

/-- Oracle environment for `State.handle_upload` and
`State.extract_text_with_ocr`.  Each field records what the external
library would do on this particular upload. -/
structure UploadEnv (Image : Type) where
  /-- Whether the `files` argument is nonempty. -/
  hasFiles : Bool
  /-- `file.filename` of the uploaded file. -/
  filename : String
  /-- Whether the saved file exists and has nonzero size. -/
  saveOk : Bool
  /-- `PyPDF2.PdfReader`: the list of `page.extract_text()` results
  (the empty string standing for None or empty), or the message of the
  exception the parser raises. -/
  pdfRead : Except String (List String)
  /-- `pdf2image.convert_from_path`: page images, or the message of the
  exception it raises. -/
  convert : Except String (List Image)
  /-- `PIL` grayscale conversion `image.convert("L")`. -/
  grayscale : Image → Image
  /-- `PIL ImageEnhance.Contrast(...).enhance(factor)`. -/
  contrast : Rat → Image → Image
  /-- `PIL image.filter(ImageFilter.SHARPEN)`. -/
  sharpen : Image → Image
  /-- `pytesseract.image_to_string` on a (processed) image, or the
  message of the exception it raises. -/
  ocr : Image → Except String String
  /-- `app.add(...)`: success, or the message of the ValueError it
  raises. -/
  addResult : Except String Unit

/-- The page loop of `State.extract_text_with_ocr`: each page image is
preprocessed and OCRed, and its text plus a blank line is appended to the
accumulator; an exception escapes the loop, is caught by the surrounding
handler, and the text accumulated so far is returned. -/
def ocrLoop {Image : Type} (env : UploadEnv Image) :
    List Image → String → String
  | [], acc => acc
  | img :: rest, acc =>
    match env.ocr (preprocess_image env.grayscale env.contrast env.sharpen img) with
    | Except.ok t => ocrLoop env rest (acc ++ t ++ "\n\n")
    | Except.error _ => acc

/-- `State.extract_text_with_ocr`: convert the PDF to page images and run
the OCR loop; any exception (including one from the conversion itself) is
caught and the text accumulated so far is returned. -/
def extract_text_with_ocr {Image : Type} (env : UploadEnv Image) : String :=
  match env.convert with
  | Except.error _ => ""
  | Except.ok images => ocrLoop env images ""

/-- The direct-extraction loop of `State.handle_upload`: concatenate the
`page.extract_text()` results, skipping falsy (empty) ones. -/
def directExtract (pages : List String) : String :=
  pages.foldl (fun acc t => if t = "" then acc else acc ++ t) ""

/-- The Python emptiness test `not text.strip()`: true exactly when the
string is empty or consists of whitespace only, which is when stripping
whitespace from both ends leaves the empty string. -/
def isBlank (s : String) : Bool :=
  s.data.all Char.isWhitespace

/-- Result of `State.handle_upload`: the final session state plus a
record of which external effects ran and of the final value of the local
variable `extracted_text`. -/
structure UploadResult where
  state : State
  /-- Whether `extract_text_with_ocr` was called. -/
  ocrInvoked : Bool
  /-- Whether `get_app` instantiated the store. -/
  appInstantiated : Bool
  /-- Whether `app.add` was called. -/
  addCalled : Bool
  /-- Final value of the local `extracted_text`. -/
  extracted : String
deriving Repr

/-- The tail of `State.handle_upload` after `extracted_text` is settled:
report failure if the text is whitespace-only, otherwise instantiate the
store and add the text, appending the filename on success and reporting
the ValueError on failure. -/
def finishUpload {Image : Type} (env : UploadEnv Image) (s : State)
    (ocrInvoked : Bool) (text : String) : UploadResult :=
  if isBlank text = true then
    ⟨{s with upload_status :=
        "OCR failed to extract meaningful content from " ++ s.pdf_filename},
      ocrInvoked, false, false, text⟩
  else
    match env.addResult with
    | Except.ok _ =>
      ⟨{s with
          knowledge_base_files := s.knowledge_base_files ++ [s.pdf_filename],
          upload_status :=
            "Processed and added " ++ s.pdf_filename ++ " to the knowledge base!"},
        ocrInvoked, true, true, text⟩
    | Except.error e =>
      ⟨{s with upload_status :=
          "Failed to process " ++ s.pdf_filename ++ ". Error: " ++ e},
        ocrInvoked, true, true, text⟩

/-- `State.handle_upload`: save the file, try direct extraction, abort on
a parser exception, fall back to OCR when the direct result is
whitespace-only, then ingest. -/
def handle_upload {Image : Type} (env : UploadEnv Image) (s : State) :
    UploadResult :=
  if env.hasFiles = false then
    ⟨{s with upload_status := "No file uploaded!"}, false, false, false, ""⟩
  else
    let s0 : State := {s with pdf_filename := env.filename}
    if env.saveOk = false then
      ⟨{s0 with upload_status := "File not saved properly or is empty!"},
        false, false, false, ""⟩
    else
      match env.pdfRead with
      | Except.error e =>
        ⟨{s0 with upload_status := "Error reading PDF with PyPDF2: " ++ e},
          false, false, false, ""⟩
      | Except.ok pages =>
        let direct := directExtract pages
        if isBlank direct = true then
          let s1 : State :=
            {s0 with upload_status :=
              "No selectable text found in " ++ env.filename ++ ", performing OCR..."}
          finishUpload env s1 true (extract_text_with_ocr env)
        else
          finishUpload env s0 false direct

/-- Result of `State.chat`: the final session state, whether the store
was instantiated and the model called, and the exception that escaped the
method, if any. -/
structure ChatResult where
  state : State
  appInstantiated : Bool
  llmCalled : Bool
  raised : Option String
deriving DecidableEq, Repr

/-- `State.chat`: return at once on an empty question; otherwise
instantiate the store, append the user message, call the model (whose
outcome is the oracle argument), append the assistant message and clear
the question.  An exception from the model call escapes uncaught, after
the user message was already appended. -/
def chat (respond : Except String String) (s : State) : ChatResult :=
  if s.user_question = "" then
    ⟨s, false, false, none⟩
  else
    let s1 : State := {s with messages := s.messages ++ [⟨"user", s.user_question⟩]}
    match respond with
    | Except.error e => ⟨s1, true, true, some e⟩
    | Except.ok r =>
      ⟨{s1 with
          messages := s1.messages ++ [⟨"assistant", r⟩],
          user_question := ""},
        true, true, none⟩

/-- `State.clear_chat`: reset the messages list to empty. -/
def clear_chat (s : State) : State :=
  {s with messages := []}

/-- Concatenation of per-page OCR texts, each followed by a blank-line
separator, used to state the shape of the OCR result. -/
def joinPages : List String → String
  | [] => ""
  | t :: rest => t ++ "\n\n" ++ joinPages rest

/-- A fresh session state, as after app start. -/
def exState : State :=
  ⟨[], "kb", "", [], "", ""⟩

/-- Upload environment of the contract scenario: one page of selectable
text, OCR available but unneeded, ingestion succeeds. -/
def contractEnv : UploadEnv Nat :=
  ⟨true, "contract.pdf", true, Except.ok ["Payment due in 30 days"],
    Except.ok [0], id, fun _ i => i, id,
    fun _ => Except.ok "Invoice #123", Except.ok ()⟩

/-- Upload environment of a scan whose OCR engine raises on the first
page while the second page would read "B". -/
def scanFailEnv : UploadEnv Nat :=
  ⟨true, "scan.pdf", true, Except.ok [""],
    Except.ok [0, 1], id, fun _ i => i, id,
    fun i => if i = 0 then Except.error "tesseract crashed" else Except.ok "B",
    Except.ok ()⟩

/-- Upload environment of a three-page scan whose OCR engine reads "A"
on page one, raises on page two, and would read "C" on page three. -/
def scanMidFailEnv : UploadEnv Nat :=
  ⟨true, "scan3.pdf", true, Except.ok [""],
    Except.ok [0, 1, 2], id, fun _ i => i, id,
    fun i =>
      if i = 0 then Except.ok "A"
      else if i = 1 then Except.error "tesseract crashed"
      else Except.ok "C",
    Except.ok ()⟩

/-- Upload environment where the PDF parser raises. -/
def badPdfEnv : UploadEnv Nat :=
  ⟨true, "broken.pdf", true, Except.error "bad xref table",
    Except.ok [0], id, fun _ i => i, id,
    fun _ => Except.ok "ignored", Except.ok ()⟩

/-- Upload environment where both direct extraction and OCR yield only
whitespace. -/
def blankEnv : UploadEnv Nat :=
  ⟨true, "blank.pdf", true, Except.ok [""],
    Except.ok [0], id, fun _ i => i, id,
    fun _ => Except.ok " ", Except.ok ()⟩

/-- A session state with a pending question and one prior message. -/
def qState : State :=
  ⟨[⟨"user", "hi"⟩], "kb", "contract.pdf", ["contract.pdf"],
    "What is the due date?", "ok"⟩

/- ------------------------------------------------------------------ -/
/- Helper lemmas                                                      -/
/- ------------------------------------------------------------------ -/

theorem strAppendAssoc (a b c : String) : a ++ b ++ c = a ++ (b ++ c) := by
  apply String.ext
  simp [String.data_append]

theorem strEmptyAppend (s : String) : "" ++ s = s := by
  apply String.ext
  simp [String.data_append]

theorem finishUpload_extracted {Image : Type} (env : UploadEnv Image)
    (s : State) (b : Bool) (t : String) :
    (finishUpload env s b t).extracted = t := by
  unfold finishUpload
  split
  · rfl
  · split <;> rfl

theorem finishUpload_ocrInvoked {Image : Type} (env : UploadEnv Image)
    (s : State) (b : Bool) (t : String) :
    (finishUpload env s b t).ocrInvoked = b := by
  unfold finishUpload
  split
  · rfl
  · split <;> rfl

theorem handle_upload_read_ok {Image : Type} (env : UploadEnv Image)
    (s : State) (pages : List String)
    (hf : env.hasFiles = true) (hs : env.saveOk = true)
    (hr : env.pdfRead = Except.ok pages) :
    handle_upload env s =
      (if isBlank (directExtract pages) = true then
        finishUpload env
          {s with pdf_filename := env.filename,
                  upload_status :=
                    "No selectable text found in " ++ env.filename ++
                      ", performing OCR..."}
          true (extract_text_with_ocr env)
      else
        finishUpload env {s with pdf_filename := env.filename} false
          (directExtract pages)) := by
  unfold handle_upload
  rw [hf, hs, hr]
  simp

theorem handle_upload_read_error {Image : Type} (env : UploadEnv Image)
    (s : State) (e : String)
    (hf : env.hasFiles = true) (hs : env.saveOk = true)
    (hr : env.pdfRead = Except.error e) :
    handle_upload env s =
      ⟨{s with pdf_filename := env.filename,
               upload_status := "Error reading PDF with PyPDF2: " ++ e},
        false, false, false, ""⟩ := by
  unfold handle_upload
  rw [hf, hs, hr]
  simp

theorem ocrLoop_all_ok {Image : Type} (env : UploadEnv Image) :
    ∀ (imgs : List Image) (texts : List String) (acc : String),
      imgs.map
          (fun i =>
            env.ocr (preprocess_image env.grayscale env.contrast env.sharpen i))
        = texts.map Except.ok →
      ocrLoop env imgs acc = acc ++ joinPages texts
  | [], texts, acc, h => by
    cases texts with
    | nil =>
      simp only [ocrLoop, joinPages]
      apply String.ext
      simp [String.data_append]
    | cons t ts => simp at h
  | img :: imgs, texts, acc, h => by
    cases texts with
    | nil => simp at h
    | cons t ts =>
      simp only [List.map_cons, List.cons.injEq] at h
      obtain ⟨h1, h2⟩ := h
      simp only [ocrLoop, h1]
      rw [ocrLoop_all_ok env imgs ts _ h2, joinPages]
      simp [strAppendAssoc]

theorem ocrLoop_error_stop {Image : Type} (env : UploadEnv Image)
    (e : String) :
    ∀ (good : List Image) (texts : List String) (bad : Image)
      (rest : List Image) (acc : String),
      good.map
          (fun i =>
            env.ocr (preprocess_image env.grayscale env.contrast env.sharpen i))
        = texts.map Except.ok →
      env.ocr (preprocess_image env.grayscale env.contrast env.sharpen bad)
        = Except.error e →
      ocrLoop env (good ++ bad :: rest) acc = acc ++ joinPages texts
  | [], texts, bad, rest, acc, h, hbad => by
    cases texts with
    | nil =>
      simp only [List.nil_append, ocrLoop, hbad, joinPages]
      apply String.ext
      simp [String.data_append]
    | cons t ts => simp at h
  | img :: good, texts, bad, rest, acc, h, hbad => by
    cases texts with
    | nil => simp at h
    | cons t ts =>
      simp only [List.map_cons, List.cons.injEq] at h
      obtain ⟨h1, h2⟩ := h
      simp only [List.cons_append, ocrLoop, h1]
      rw [List.append_eq,
        ocrLoop_error_stop env e good ts bad rest _ h2 hbad, joinPages]
      simp [strAppendAssoc]

theorem finishUpload_success {Image : Type} (env : UploadEnv Image)
    (s : State) (b : Bool) (t : String)
    (h : isBlank t = false) (ha : env.addResult = Except.ok ()) :
    finishUpload env s b t =
      ⟨{s with
          knowledge_base_files := s.knowledge_base_files ++ [s.pdf_filename],
          upload_status :=
            "Processed and added " ++ s.pdf_filename ++ " to the knowledge base!"},
        b, true, true, t⟩ := by
  unfold finishUpload
  rw [if_neg (by simp [h]), ha]

/- ------------------------------------------------------------------ -/
/- Claim theorems                                                     -/
/- ------------------------------------------------------------------ -/

/-- C1: handle_upload first attempts direct per-page extraction and
concatenates the page texts; OCR is invoked if and only if that result
is empty or whitespace-only, and the OCR path preprocesses and OCRs each
page image and concatenates the page results with blank-line separators;
with extractable embedded text the final extracted text is the direct
concatenation and OCR is never invoked. -/
theorem C1_direct_extraction_with_ocr_fallback {Image : Type}
    (env : UploadEnv Image) (s : State) (pages : List String)
    (images : List Image) (texts : List String)
    (hf : env.hasFiles = true) (hs : env.saveOk = true)
    (hr : env.pdfRead = Except.ok pages)
    (hc : env.convert = Except.ok images)
    (ht : images.map
        (fun i =>
          env.ocr (preprocess_image env.grayscale env.contrast env.sharpen i))
      = texts.map Except.ok) :
    ((handle_upload env s).ocrInvoked = true ↔
      isBlank (directExtract pages) = true) ∧
    (isBlank (directExtract pages) = false →
      (handle_upload env s).extracted = directExtract pages) ∧
    (isBlank (directExtract pages) = true →
      (handle_upload env s).extracted = joinPages texts ∧
      extract_text_with_ocr env = joinPages texts) := by
  have hocr : extract_text_with_ocr env = joinPages texts := by
    unfold extract_text_with_ocr
    rw [hc]
    exact (ocrLoop_all_ok env images texts "" ht).trans (strEmptyAppend _)
  rw [handle_upload_read_ok env s pages hf hs hr]
  by_cases hd : isBlank (directExtract pages) = true
  · rw [if_pos hd]
    refine ⟨?_, ?_, ?_⟩
    · simp [finishUpload_ocrInvoked, hd]
    · intro h
      rw [hd] at h
      exact absurd h (by simp)
    · intro _
      exact ⟨by rw [finishUpload_extracted, hocr], hocr⟩
  · rw [if_neg hd]
    refine ⟨?_, ?_, ?_⟩
    · simp [finishUpload_ocrInvoked, hd]
    · intro _
      exact finishUpload_extracted _ _ _ _
    · intro h
      exact absurd h hd

/-- Witness for C1 at the contract scenario: one page of selectable
text, so OCR is skipped and the extracted text is the page text. -/
theorem C1_direct_extraction_with_ocr_fallback_witness :
    ((handle_upload contractEnv exState).ocrInvoked = true ↔
        isBlank (directExtract ["Payment due in 30 days"]) = true) ∧
    (isBlank (directExtract ["Payment due in 30 days"]) = false →
      (handle_upload contractEnv exState).extracted
        = directExtract ["Payment due in 30 days"]) ∧
    (isBlank (directExtract ["Payment due in 30 days"]) = true →
      (handle_upload contractEnv exState).extracted
        = joinPages ["Invoice #123"] ∧
      extract_text_with_ocr contractEnv = joinPages ["Invoice #123"]) :=
  C1_direct_extraction_with_ocr_fallback contractEnv exState
    ["Payment due in 30 days"] [0] ["Invoice #123"] rfl rfl rfl rfl rfl

/-- C2 counterexample: with two pages where OCR raises on the first and
would read "B" on the second, the OCR result is empty: the page after
the failing page contributes nothing, against the claim that later pages
still contribute their text. -/
theorem C2_counterexample_later_pages_lost :
    extract_text_with_ocr scanFailEnv = "" ∧
    extract_text_with_ocr scanFailEnv ≠ "B\n\n" := by
  refine ⟨rfl, ?_⟩
  decide

/-- C2 (amended): an OCR-engine exception on a page is caught outside
the page loop, ending OCR extraction: the failing page and every later
page contribute no text, and the text accumulated from the earlier pages
is returned. -/
theorem C2_amended_ocr_error_stops_loop {Image : Type}
    (env : UploadEnv Image) (good : List Image) (texts : List String)
    (bad : Image) (rest : List Image) (e : String)
    (hc : env.convert = Except.ok (good ++ bad :: rest))
    (hgood : good.map
        (fun i =>
          env.ocr (preprocess_image env.grayscale env.contrast env.sharpen i))
      = texts.map Except.ok)
    (hbad : env.ocr (preprocess_image env.grayscale env.contrast env.sharpen bad)
      = Except.error e) :
    extract_text_with_ocr env = joinPages texts := by
  unfold extract_text_with_ocr
  rw [hc]
  exact (ocrLoop_error_stop env e good texts bad rest "" hgood hbad).trans
    (strEmptyAppend _)

/-- Witness for C2 (amended): OCR reads "A" on page one, raises on page
two, and page three is never reached. -/
theorem C2_amended_ocr_error_stops_loop_witness :
    extract_text_with_ocr scanMidFailEnv = joinPages ["A"] :=
  C2_amended_ocr_error_stops_loop scanMidFailEnv [0] ["A"] 1 [2]
    "tesseract crashed" rfl rfl rfl

/-- C3: a parser exception during direct extraction aborts handle_upload
with the error status; OCR is not invoked, the store is neither
instantiated nor written, and the knowledge-base list and messages are
unchanged. -/
theorem C3_parse_error_aborts_without_ocr {Image : Type}
    (env : UploadEnv Image) (s : State) (e : String)
    (hf : env.hasFiles = true) (hs : env.saveOk = true)
    (hr : env.pdfRead = Except.error e) :
    (handle_upload env s).state.upload_status
      = "Error reading PDF with PyPDF2: " ++ e ∧
    (handle_upload env s).ocrInvoked = false ∧
    (handle_upload env s).appInstantiated = false ∧
    (handle_upload env s).addCalled = false ∧
    (handle_upload env s).state.knowledge_base_files = s.knowledge_base_files ∧
    (handle_upload env s).state.messages = s.messages := by
  rw [handle_upload_read_error env s e hf hs hr]
  exact ⟨rfl, rfl, rfl, rfl, rfl, rfl⟩

/-- Witness for C3 on a PDF whose parser raises over a bad xref table. -/
theorem C3_parse_error_aborts_without_ocr_witness :
    (handle_upload badPdfEnv exState).state.upload_status
      = "Error reading PDF with PyPDF2: " ++ "bad xref table" ∧
    (handle_upload badPdfEnv exState).ocrInvoked = false ∧
    (handle_upload badPdfEnv exState).appInstantiated = false ∧
    (handle_upload badPdfEnv exState).addCalled = false ∧
    (handle_upload badPdfEnv exState).state.knowledge_base_files
      = exState.knowledge_base_files ∧
    (handle_upload badPdfEnv exState).state.messages = exState.messages :=
  C3_parse_error_aborts_without_ocr badPdfEnv exState "bad xref table"
    rfl rfl rfl

/-- C4 counterexample: uploading the same file twice with the same
content appends its name twice, so it does not appear exactly once. -/
theorem C4_counterexample_duplicate_append :
    (handle_upload contractEnv
        (handle_upload contractEnv exState).state).state.knowledge_base_files
      = ["contract.pdf", "contract.pdf"] ∧
    ¬ (List.count "contract.pdf"
        (handle_upload contractEnv
          (handle_upload contractEnv exState).state).state.knowledge_base_files
        = 1) := by
  refine ⟨rfl, ?_⟩
  decide

/-- C4 (amended): each successful ingestion appends the filename to the
knowledge-base list (so ingesting the same file twice leaves the name
twice) and sets the success status string. -/
theorem C4_amended_success_appends_filename {Image : Type}
    (env : UploadEnv Image) (s : State) (pages : List String)
    (hf : env.hasFiles = true) (hs : env.saveOk = true)
    (hr : env.pdfRead = Except.ok pages)
    (hd : isBlank (directExtract pages) = false)
    (ha : env.addResult = Except.ok ()) :
    (handle_upload env s).state.knowledge_base_files
      = s.knowledge_base_files ++ [env.filename] ∧
    (handle_upload env s).state.upload_status
      = "Processed and added " ++ env.filename ++ " to the knowledge base!" ∧
    (handle_upload env
        (handle_upload env s).state).state.knowledge_base_files
      = s.knowledge_base_files ++ [env.filename, env.filename] := by
  have step : ∀ s' : State,
      (handle_upload env s').state.knowledge_base_files
        = s'.knowledge_base_files ++ [env.filename] ∧
      (handle_upload env s').state.upload_status
        = "Processed and added " ++ env.filename ++ " to the knowledge base!" := by
    intro s'
    rw [handle_upload_read_ok env s' pages hf hs hr, if_neg (by simp [hd]),
      finishUpload_success env _ false (directExtract pages) hd ha]
    exact ⟨rfl, rfl⟩
  refine ⟨(step s).1, (step s).2, ?_⟩
  rw [(step _).1, (step s).1, List.append_assoc]
  rfl

/-- Witness for C4 (amended) at the contract scenario starting from the
fresh state. -/
theorem C4_amended_success_appends_filename_witness :
    (handle_upload contractEnv exState).state.knowledge_base_files
      = exState.knowledge_base_files ++ ["contract.pdf"] ∧
    (handle_upload contractEnv exState).state.upload_status
      = "Processed and added " ++ "contract.pdf" ++ " to the knowledge base!" ∧
    (handle_upload contractEnv
        (handle_upload contractEnv exState).state).state.knowledge_base_files
      = exState.knowledge_base_files ++ ["contract.pdf", "contract.pdf"] :=
  C4_amended_success_appends_filename contractEnv exState
    ["Payment due in 30 days"] rfl rfl rfl (by decide) rfl

/-- C5: when OCR also yields only whitespace, handle_upload reports the
OCR failure status and attempts no ingestion: the store is neither
instantiated nor written, and the knowledge-base list and messages are
unchanged. -/
theorem C5_whitespace_ocr_reports_failure {Image : Type}
    (env : UploadEnv Image) (s : State) (pages : List String)
    (hf : env.hasFiles = true) (hs : env.saveOk = true)
    (hr : env.pdfRead = Except.ok pages)
    (hd : isBlank (directExtract pages) = true)
    (ho : isBlank (extract_text_with_ocr env) = true) :
    (handle_upload env s).state.upload_status
      = "OCR failed to extract meaningful content from " ++ env.filename ∧
    (handle_upload env s).appInstantiated = false ∧
    (handle_upload env s).addCalled = false ∧
    (handle_upload env s).state.knowledge_base_files = s.knowledge_base_files ∧
    (handle_upload env s).state.messages = s.messages := by
  rw [handle_upload_read_ok env s pages hf hs hr, if_pos hd]
  unfold finishUpload
  rw [if_pos ho]
  exact ⟨rfl, rfl, rfl, rfl, rfl⟩

/-- Witness for C5 on a blank scan whose OCR yields a single space. -/
theorem C5_whitespace_ocr_reports_failure_witness :
    (handle_upload blankEnv exState).state.upload_status
      = "OCR failed to extract meaningful content from " ++ "blank.pdf" ∧
    (handle_upload blankEnv exState).appInstantiated = false ∧
    (handle_upload blankEnv exState).addCalled = false ∧
    (handle_upload blankEnv exState).state.knowledge_base_files
      = exState.knowledge_base_files ∧
    (handle_upload blankEnv exState).state.messages = exState.messages :=
  C5_whitespace_ocr_reports_failure blankEnv exState [""] rfl rfl rfl
    (by decide) (by decide)

/-- C6: preprocess_image is deterministic and equals the fixed
three-stage pipeline: grayscale, then contrast enhancement by the fixed
factor 2.0, then the sharpening filter; two calls on the same image
yield identical outputs. -/
theorem C6_preprocess_deterministic_pipeline (Image : Type)
    (grayscale : Image → Image) (contrast : Rat → Image → Image)
    (sharpen : Image → Image) (image : Image) :
    preprocess_image grayscale contrast sharpen image
      = sharpen (contrast 2 (grayscale image)) ∧
    preprocess_image grayscale contrast sharpen image
      = preprocess_image grayscale contrast sharpen image :=
  ⟨rfl, rfl⟩

/-- C7: clear_chat empties the messages list and changes nothing else:
the knowledge-base list, the store directory path, the pending question,
the upload status and the remembered filename are untouched. -/
theorem C7_clear_chat_only_empties_messages (s : State) :
    (clear_chat s).messages = [] ∧
    (clear_chat s).knowledge_base_files = s.knowledge_base_files ∧
    (clear_chat s).db_path = s.db_path ∧
    (clear_chat s).user_question = s.user_question ∧
    (clear_chat s).upload_status = s.upload_status ∧
    (clear_chat s).pdf_filename = s.pdf_filename :=
  ⟨rfl, rfl, rfl, rfl, rfl, rfl⟩

/-- C8: for a non-empty question, a successful chat call appends exactly
two entries, in order a user entry carrying the question and an
assistant entry carrying the response, leaving all earlier messages in
place. -/
theorem C8_chat_appends_question_then_answer (s : State) (r : String)
    (hq : s.user_question ≠ "") :
    (chat (Except.ok r) s).state.messages
      = s.messages ++ [⟨"user", s.user_question⟩, ⟨"assistant", r⟩] := by
  unfold chat
  rw [if_neg hq]
  simp

/-- Witness for C8 at the contract scenario question. -/
theorem C8_chat_appends_question_then_answer_witness :
    qState.user_question ≠ "" ∧
    (chat (Except.ok "Payment is due in 30 days.") qState).state.messages
      = qState.messages ++
          [⟨"user", qState.user_question⟩,
            ⟨"assistant", "Payment is due in 30 days."⟩] :=
  ⟨by decide,
    C8_chat_appends_question_then_answer qState "Payment is due in 30 days."
      (by decide)⟩

/-- C9: an exception from the model call is not caught: it escapes chat,
and at that point the user entry is already appended while no assistant
entry is. -/
theorem C9_chat_error_escapes_after_user_append (s : State) (e : String)
    (hq : s.user_question ≠ "") :
    (chat (Except.error e) s).raised = some e ∧
    (chat (Except.error e) s).llmCalled = true ∧
    (chat (Except.error e) s).state.messages
      = s.messages ++ [⟨"user", s.user_question⟩] := by
  unfold chat
  rw [if_neg hq]
  exact ⟨rfl, rfl, rfl⟩

/-- Witness for C9: a refused connection at the contract scenario
question. -/
theorem C9_chat_error_escapes_after_user_append_witness :
    qState.user_question ≠ "" ∧
    (chat (Except.error "connection refused") qState).raised
      = some "connection refused" ∧
    (chat (Except.error "connection refused") qState).llmCalled = true ∧
    (chat (Except.error "connection refused") qState).state.messages
      = qState.messages ++ [⟨"user", qState.user_question⟩] :=
  ⟨by decide,
    C9_chat_error_escapes_after_user_append qState "connection refused"
      (by decide)⟩

/-- C10: on an empty pending question, chat is a no-op: no store
instantiation, no model call, no exception, and the state is returned
unchanged. -/
theorem C10_chat_empty_question_noop (respond : Except String String)
    (s : State) (hq : s.user_question = "") :
    chat respond s = ⟨s, false, false, none⟩ := by
  unfold chat
  rw [if_pos hq]

/-- Witness for C10 on the fresh session state. -/
theorem C10_chat_empty_question_noop_witness :
    exState.user_question = "" ∧
    chat (Except.ok "whatever") exState = ⟨exState, false, false, none⟩ :=
  ⟨rfl, C10_chat_empty_question_noop (Except.ok "whatever") exState rfl⟩

end ChatWithPdf
